import Mathlib

/-
Verification of the seed-vc TTS API (src/seed-vc/api.py) against its design
specification. The module below is a shallow embedding of the request pipeline:
credential verification, the Gemini synthesis client wrapper, and the /convert,
/voices and /health endpoints. External effects (the Gemini call, UUID
generation, directory creation, the file write, file removal) are injected
through a World value; filesystem state is an association list from paths to
byte lists, and every handler returns its response together with a Trace
recording the side effects it performed.
-/

namespace SeedVC

/-- Audio payloads are byte sequences, modelled as lists of naturals. -/
abbrev Bytes := List Nat

/-- The local filesystem visible to the service: paths mapped to file contents. -/
abbrev FS := List (String × Bytes)

/-- Look up the contents of a file, if present. -/
def fsLookup : FS → String → Option Bytes
  | [], _ => none
  | (q, b) :: rest, p => if q = p then some b else fsLookup rest p

/-- Delete a file (all entries at the path). -/
def fsErase : FS → String → FS
  | [], _ => []
  | (q, b) :: rest, p => if q = p then fsErase rest p else (q, b) :: fsErase rest p

/-- Write a file, overwriting any existing contents (open with mode wb truncates). -/
def fsWrite (fs : FS) (p : String) (b : Bytes) : FS :=
  (p, b) :: fsErase fs p

/-- Whether a file exists at the path (os.path.exists). -/
def fsExists (fs : FS) (p : String) : Bool :=
  (fsLookup fs p).isSome

/-- Python truthiness of an optional string: None and the empty string are falsy. -/
def pyTruthy : Option String → Bool
  | none => false
  | some s => s ≠ ""

/-- os.path.join for the simple relative-component case used by the service. -/
def pathJoin (a b : String) : String := a ++ "/" ++ b

/-- The statically configured supported-voice set (api.py line 71). -/
def SUPPORTED_GEMINI_VOICES : List String :=
  ["echo", "alloy", "fable", "onyx", "nova", "shimmer"]

/-- Process-wide configuration read from the environment at startup. -/
structure Config where
  API_KEY : Option String
  GEMINI_API_KEY : Option String
  LOCAL_AUDIO_PATH : String

/-- The request body of POST /convert (api.py lines 74-77). -/
structure TextToSpeechRequest where
  text : String
  voice : String
  user_id : String

/-- One left-to-right pass removing every non-overlapping occurrence of the
seven characters of "Bearer ", the semantics of the Python call
replace applied to the constant pattern the source uses. -/
def stripBearerAll : List Char → List Char
  | 'B' :: 'e' :: 'a' :: 'r' :: 'e' :: 'r' :: ' ' :: rest => stripBearerAll rest
  | c :: rest => c :: stripBearerAll rest
  | [] => []

/-- Python startswith for the constant pattern "Bearer ". -/
def pyStartsWithBearer (s : String) : Bool :=
  "Bearer ".data.isPrefixOf s.data

/-- Token extraction from the Authorization header value (api.py lines 33-36).
The source calls replace, which removes every occurrence of "Bearer ", not
only the leading one. -/
def extractToken (s : String) : String :=
  if pyStartsWithBearer s then String.mk (stripBearerAll s.data) else s

/-- verify_api_key (api.py lines 28-42), over an optional configured secret and
an optional raw header value. Comparing the token with an absent secret is the
Python comparison of a str with None, which is never equal. -/
def verify_api_key (apiKey : Option String) (authorization : Option String) :
    Except (Nat × String) String :=
  match authorization with
  | none => Except.error (401, "API key is missing")
  | some auth =>
    if auth = "" then Except.error (401, "API key is missing")
    else
      let token := extractToken auth
      if apiKey = some token then Except.ok token
      else Except.error (401, "Invalid API key")

/-- Outcome of one call to the external Gemini capability: it raises, or it
returns a response whose audio_content attribute may be absent. -/
inductive GeminiOutcome where
  | raises (msg : String)
  | returns (audio_content : Option Bytes)

/-- generate_gemini_tts (api.py lines 80-114). The external capability is the
oracle argument; the second component counts how many times it was invoked.
Every exception is wrapped into the fixed failure message. -/
def generate_gemini_tts (oracle : String → String → GeminiOutcome)
    (text voice : String) : Except String Bytes × Nat :=
  if voice ∈ SUPPORTED_GEMINI_VOICES then
    match oracle text voice with
    | GeminiOutcome.raises msg =>
      (Except.error ("Gemini TTS generation failed: " ++ msg), 1)
    | GeminiOutcome.returns none =>
      (Except.error ("Gemini TTS generation failed: Gemini TTS response structure changed or audio_content missing."), 1)
    | GeminiOutcome.returns (some audio_bytes) =>
      (Except.ok audio_bytes, 1)
  else
    (Except.error ("Gemini TTS generation failed: Voice \x27" ++ voice ++ "\x27 is not supported."), 0)

/-- How the file write at api.py lines 146-147 behaves: it succeeds, it raises
with no file created, or it raises after writing a partial payload. -/
inductive WriteOutcome where
  | ok
  | failNoFile (msg : String)
  | failPart (written : Bytes) (msg : String)

/-- The exception message of a failing write, none when the write succeeds. -/
def WriteOutcome.failMsg : WriteOutcome → Option String
  | WriteOutcome.ok => none
  | WriteOutcome.failNoFile m => some m
  | WriteOutcome.failPart _ m => some m

/-- The nondeterministic environment of one /convert request: the external
synthesis capability, the freshly generated UUID, and the behaviour of the
directory creation, file write and file removal system calls. -/
structure World where
  gemini : String → String → GeminiOutcome
  freshId : String
  makedirsFails : Option String
  writeOutcome : WriteOutcome
  removeFails : Bool

/-- The HTTP outcome of a request: a success body or an error status with detail. -/
inductive Response where
  | ok (audio_url : String) (local_path : String)
  | err (status : Nat) (detail : String)

/-- The HTTP status code of a response (200 on success). -/
def Response.status : Response → Nat
  | Response.ok _ _ => 200
  | Response.err s _ => s

/-- Side effects performed while handling one request. -/
structure Trace where
  fs : FS
  synthCalls : Nat
  saveCalls : Nat
  cleanupInvoked : Bool
  removeCalls : Nat
  cleanupFailures : Nat
  removeTarget : Option String

/-- The trace of a request that performed no side effect. -/
def Trace.noEffect (fs : FS) : Trace :=
  { fs := fs, synthCalls := 0, saveCalls := 0, cleanupInvoked := false,
    removeCalls := 0, cleanupFailures := 0, removeTarget := Option.none }

/-- The cleanup block of api.py lines 165-170: if a file exists at the attempted
path, os.remove it; an OSError from the removal is logged and swallowed, leaving
the file in place. Returns the filesystem, the number of os.remove calls, and
the number of logged cleanup failures. -/
def cleanupFile (fs : FS) (full_path : String) (removeRaises : Bool) :
    FS × Nat × Nat :=
  if fsExists fs full_path then
    if removeRaises then (fs, 1, 1)
    else (fsErase fs full_path, 1, 0)
  else (fs, 0, 0)

/-- text_to_speech (api.py lines 117-172), after the credential dependency has
accepted the request: config check, voice check, user_id check, synthesis,
filesystem write, and the catch-all error handler with its cleanup block. -/
def text_to_speech (cfg : Config) (w : World) (req : TextToSpeechRequest)
    (fs0 : FS) : Response × Trace :=
  if !pyTruthy cfg.GEMINI_API_KEY then
    (Response.err 500 "TTS service not configured (missing GEMINI_API_KEY)", Trace.noEffect fs0)
  else if req.voice ∉ SUPPORTED_GEMINI_VOICES then
    (Response.err 400 ("Target voice not supported. Choose from: " ++
      String.intercalate ", " SUPPORTED_GEMINI_VOICES), Trace.noEffect fs0)
  else if req.user_id = "" then
    (Response.err 400 "user_id is required", Trace.noEffect fs0)
  else
    match generate_gemini_tts w.gemini req.text req.voice with
    | (Except.error msg, n) =>
      (Response.err 500 ("Error in text to speech conversion: " ++ msg),
       { Trace.noEffect fs0 with synthCalls := n })
    | (Except.ok audio_bytes, n) =>
      let output_filename := w.freshId ++ ".wav"
      let user_audio_dir := pathJoin cfg.LOCAL_AUDIO_PATH req.user_id
      match w.makedirsFails with
      | some m =>
        (Response.err 500 ("Error in text to speech conversion: " ++ m),
         { Trace.noEffect fs0 with synthCalls := n })
      | Option.none =>
        let full_path := pathJoin user_audio_dir output_filename
        match w.writeOutcome with
        | WriteOutcome.ok =>
          (Response.ok ("/audio/" ++ req.user_id ++ "/" ++ output_filename) full_path,
           { fs := fsWrite fs0 full_path audio_bytes, synthCalls := n, saveCalls := 1,
             cleanupInvoked := false, removeCalls := 0, cleanupFailures := 0,
             removeTarget := Option.none })
        | WriteOutcome.failNoFile m =>
          let c := cleanupFile fs0 full_path w.removeFails
          (Response.err 500 ("Error in text to speech conversion: " ++ m),
           { fs := c.1, synthCalls := n, saveCalls := 1, cleanupInvoked := true,
             removeCalls := c.2.1, cleanupFailures := c.2.2,
             removeTarget := if c.2.1 = 0 then Option.none else some full_path })
        | WriteOutcome.failPart written m =>
          let c := cleanupFile (fsWrite fs0 full_path written) full_path w.removeFails
          (Response.err 500 ("Error in text to speech conversion: " ++ m),
           { fs := c.1, synthCalls := n, saveCalls := 1, cleanupInvoked := true,
             removeCalls := c.2.1, cleanupFailures := c.2.2,
             removeTarget := if c.2.1 = 0 then Option.none else some full_path })

/-- POST /convert including its credential dependency (api.py line 117). -/
def convertRoute (cfg : Config) (w : World) (authorization : Option String)
    (req : TextToSpeechRequest) (fs0 : FS) : Response × Trace :=
  match verify_api_key cfg.API_KEY authorization with
  | Except.error e => (Response.err e.1 e.2, Trace.noEffect fs0)
  | Except.ok _ => text_to_speech cfg w req fs0

/-- GET /voices including its credential dependency (api.py lines 175-177). -/
def list_voices (cfg : Config) (authorization : Option String) :
    Except (Nat × String) (List String) :=
  (verify_api_key cfg.API_KEY authorization).map fun _ => SUPPORTED_GEMINI_VOICES

/-- GET /health including its credential dependency (api.py lines 180-192);
isConfigured models the getattr on the genai module, default True. -/
def health_check (cfg : Config) (isConfigured : Bool) (authorization : Option String) :
    Except (Nat × String) (String × String) :=
  (verify_api_key cfg.API_KEY authorization).map fun _ =>
    if pyTruthy cfg.GEMINI_API_KEY && isConfigured then
      ("healthy", "gemini_configured")
    else if pyTruthy cfg.GEMINI_API_KEY then
      ("unhealthy", "gemini_api_key_present_but_not_fully_configured")
    else
      ("unhealthy", "gemini_api_key_missing")

/-- Token extraction as the specification describes it: strip one leading
"Bearer " occurrence when present, leaving the remainder unchanged. Stated for
comparison with extractToken, which is the code behaviour. -/
def specStripSingleBearer (s : String) : String :=
  if pyStartsWithBearer s then String.mk (s.data.drop 7) else s

/-- A concrete configuration with both secrets present, used as witness input. -/
def cfg1 : Config :=
  { API_KEY := some "k", GEMINI_API_KEY := some "g",
    LOCAL_AUDIO_PATH := "/app/generated_audio" }

/-- A concrete configuration whose bearer secret is unset. -/
def cfgNoKey : Config :=
  { API_KEY := Option.none, GEMINI_API_KEY := some "g",
    LOCAL_AUDIO_PATH := "/app/generated_audio" }

/-- The concrete request of the specification test vignette. -/
def reqHello : TextToSpeechRequest :=
  { text := "Hello world", voice := "echo", user_id := "u1" }

/-- A concrete request with an unsupported voice. -/
def reqRobot : TextToSpeechRequest :=
  { text := "Hello world", voice := "robot", user_id := "u1" }

/-- A concrete request with an absent (empty) user_id. -/
def reqNoUser : TextToSpeechRequest :=
  { text := "Hello world", voice := "echo", user_id := "" }

/-- A synthesis capability that always returns the bytes [7, 8]. -/
def geminiOk : String → String → GeminiOutcome :=
  fun _ _ => GeminiOutcome.returns (some [7, 8])

/-- A synthesis capability that always raises. -/
def geminiBoom : String → String → GeminiOutcome :=
  fun _ _ => GeminiOutcome.raises "boom"

/-- A synthesis capability that always returns the bytes [1]. -/
def geminiConst : String → String → GeminiOutcome :=
  fun _ _ => GeminiOutcome.returns (some [1])

/-- A fully successful request environment. -/
def wOk : World :=
  { gemini := geminiOk, freshId := "id0", makedirsFails := Option.none,
    writeOutcome := WriteOutcome.ok, removeFails := false }

/-- An environment whose synthesis call raises. -/
def wErr : World :=
  { gemini := geminiBoom, freshId := "id0", makedirsFails := Option.none,
    writeOutcome := WriteOutcome.ok, removeFails := false }

/-- An environment whose file write raises after a partial write and whose
file removal also raises. -/
def wBad : World :=
  { gemini := geminiOk, freshId := "id0", makedirsFails := Option.none,
    writeOutcome := WriteOutcome.failPart [3] "disk full", removeFails := true }

/-- An environment whose file write raises after a partial write, with a
healthy file removal. -/
def wFailPartClean : World :=
  { gemini := geminiOk, freshId := "id0", makedirsFails := Option.none,
    writeOutcome := WriteOutcome.failPart [3] "disk full", removeFails := false }

/-- The concrete /convert request with an empty text field. -/
def reqEmptyText : TextToSpeechRequest :=
  { text := "", voice := "echo", user_id := "u1" }

theorem fsLookup_fsWrite (fs : FS) (p : String) (b : Bytes) :
    fsLookup (fsWrite fs p b) p = some b := by
  simp [fsWrite, fsLookup]

theorem fsLookup_fsErase (fs : FS) (p : String) :
    fsLookup (fsErase fs p) p = Option.none := by
  induction fs with
  | nil => simp [fsErase, fsLookup]
  | cons hd tl ih =>
    obtain ⟨q, b⟩ := hd
    by_cases h : q = p <;> simp [fsErase, fsLookup, h, ih]

theorem fsExists_fsErase (fs : FS) (p : String) :
    fsExists (fsErase fs p) p = false := by
  simp [fsExists, fsLookup_fsErase]

theorem fsExists_fsWrite (fs : FS) (p : String) (b : Bytes) :
    fsExists (fsWrite fs p b) p = true := by
  simp [fsExists, fsLookup_fsWrite]

theorem generate_gemini_tts_ok (oracle : String → String → GeminiOutcome)
    (text voice : String) (B : Bytes) (hv : voice ∈ SUPPORTED_GEMINI_VOICES)
    (h : oracle text voice = GeminiOutcome.returns (some B)) :
    generate_gemini_tts oracle text voice = (Except.ok B, 1) := by
  simp [generate_gemini_tts, hv, h]

theorem generate_gemini_tts_calls_one (oracle : String → String → GeminiOutcome)
    (text voice : String) (hv : voice ∈ SUPPORTED_GEMINI_VOICES) :
    (generate_gemini_tts oracle text voice).2 = 1 := by
  rcases h : oracle text voice with m | oB
  · simp [generate_gemini_tts, hv, h]
  · rcases oB with _ | B <;> simp [generate_gemini_tts, hv, h]

/-- C6 counterexample: the claim says extraction strips one leading
Bearer-space occurrence and leaves the remainder unchanged, so on the header
value built from Bearer, Bearer, k the extracted token would be the secret
consisting of Bearer then k and verification would succeed; the code removes
every occurrence, extracts k, and rejects the request with 401. -/
theorem C6_counterexample :
    specStripSingleBearer "Bearer Bearer k" = "Bearer k" ∧
    extractToken "Bearer Bearer k" = "k" ∧
    verify_api_key (some "Bearer k") (some "Bearer Bearer k") =
      Except.error (401, "Invalid API key") :=
  ⟨rfl, rfl, rfl⟩

/-- C6 (amended): for every non-empty Authorization header value, credential
verification extracts the token by removing every occurrence of the
Bearer-space pattern when the value starts with it (otherwise taking the value
unchanged), and succeeds exactly when that extracted token equals the
configured secret under exact string comparison. -/
theorem C6_verify_uses_replace_all (k a : String) (ha : a ≠ "") :
    (verify_api_key (some k) (some a) = Except.ok (extractToken a) ↔
      extractToken a = k) ∧
    (extractToken a ≠ k →
      verify_api_key (some k) (some a) = Except.error (401, "Invalid API key")) := by
  constructor
  · constructor
    · intro h
      by_cases hk : extractToken a = k
      · exact hk
      · simp [verify_api_key, ha, Ne.symm hk] at h
    · intro h
      simp [verify_api_key, ha, h]
  · intro h
    simp [verify_api_key, ha, Ne.symm h]

/-- C6 witness: the amended theorem evaluated at the secret x and the header
value consisting of Bearer then x. -/
theorem C6_witness :
    (verify_api_key (some "x") (some "Bearer x") =
        Except.ok (extractToken "Bearer x") ↔ extractToken "Bearer x" = "x") ∧
    (extractToken "Bearer x" ≠ "x" →
      verify_api_key (some "x") (some "Bearer x") =
        Except.error (401, "Invalid API key")) :=
  C6_verify_uses_replace_all "x" "Bearer x" (by decide)

/-- C4 (confirmed): on every protected route, a request with no Authorization
header is answered 401 with the missing-key detail, and a request whose
extracted token differs from the configured secret is answered 401 with the
invalid-key detail; in both cases the convert pipeline performs no side effect
and the other routes return no payload. -/
theorem C4_unauthorized_rejected (cfg : Config) (w : World)
    (req : TextToSpeechRequest) (fs0 : FS) (isConfigured : Bool) :
    (convertRoute cfg w Option.none req fs0 =
        (Response.err 401 "API key is missing", Trace.noEffect fs0) ∧
      list_voices cfg Option.none = Except.error (401, "API key is missing") ∧
      health_check cfg isConfigured Option.none =
        Except.error (401, "API key is missing")) ∧
    (∀ a : String, a ≠ "" → cfg.API_KEY ≠ some (extractToken a) →
      convertRoute cfg w (some a) req fs0 =
        (Response.err 401 "Invalid API key", Trace.noEffect fs0) ∧
      list_voices cfg (some a) = Except.error (401, "Invalid API key") ∧
      health_check cfg isConfigured (some a) =
        Except.error (401, "Invalid API key")) := by
  constructor
  · refine ⟨?_, ?_, ?_⟩ <;> simp [convertRoute, list_voices, health_check, verify_api_key, Except.map]
  · intro a ha hk
    refine ⟨?_, ?_, ?_⟩ <;>
      simp [convertRoute, list_voices, health_check, verify_api_key, Except.map, ha, hk]

/-- C4 witness: the theorem evaluated at the concrete configuration and a
wrong bearer token. -/
theorem C4_witness :
    (convertRoute cfg1 wOk Option.none reqHello [] =
        (Response.err 401 "API key is missing", Trace.noEffect []) ∧
      list_voices cfg1 Option.none = Except.error (401, "API key is missing") ∧
      health_check cfg1 true Option.none =
        Except.error (401, "API key is missing")) ∧
    (convertRoute cfg1 wOk (some "Bearer zz") reqHello [] =
        (Response.err 401 "Invalid API key", Trace.noEffect []) ∧
      list_voices cfg1 (some "Bearer zz") = Except.error (401, "Invalid API key") ∧
      health_check cfg1 true (some "Bearer zz") =
        Except.error (401, "Invalid API key")) :=
  ⟨(C4_unauthorized_rejected cfg1 wOk reqHello [] true).1,
   (C4_unauthorized_rejected cfg1 wOk reqHello [] true).2 "Bearer zz"
     (by decide) (by decide)⟩

/-- C10 (confirmed): when the configured bearer secret is unset, every request
to a protected route is answered 401 whatever the Authorization header value
is, and the convert pipeline performs no side effect. -/
theorem C10_unset_secret_rejects_everything (cfg : Config) (w : World)
    (req : TextToSpeechRequest) (fs0 : FS) (isConfigured : Bool)
    (a : Option String) (hk : cfg.API_KEY = Option.none) :
    (convertRoute cfg w a req fs0).1.status = 401 ∧
    (convertRoute cfg w a req fs0).2 = Trace.noEffect fs0 ∧
    (∃ d, list_voices cfg a = Except.error (401, d)) ∧
    (∃ d, health_check cfg isConfigured a = Except.error (401, d)) := by
  rcases a with _ | s
  · simp [convertRoute, list_voices, health_check, verify_api_key, Except.map, Response.status]
  · by_cases hs : s = "" <;>
      simp [convertRoute, list_voices, health_check, verify_api_key, Except.map, hs, hk,
        Response.status]

/-- C10 witness: the theorem evaluated at a configuration with no secret and a
well-formed bearer header. -/
theorem C10_witness :
    (convertRoute cfgNoKey wOk (some "Bearer k") reqHello []).1.status = 401 ∧
    (convertRoute cfgNoKey wOk (some "Bearer k") reqHello []).2 =
      Trace.noEffect [] ∧
    (∃ d, list_voices cfgNoKey (some "Bearer k") = Except.error (401, d)) ∧
    (∃ d, health_check cfgNoKey true (some "Bearer k") =
      Except.error (401, d)) :=
  C10_unset_secret_rejects_everything cfgNoKey wOk reqHello [] true
    (some "Bearer k") rfl

/-- C3 (confirmed): for every authenticated /convert request on a service whose
provider credential is present, an unsupported voice is answered 400 with no
side effect: the synthesis capability and the storage write are never invoked
and the filesystem is unchanged. -/
theorem C3_unsupported_voice_rejected (cfg : Config) (w : World)
    (auth : Option String) (req : TextToSpeechRequest) (fs0 : FS) (tok : String)
    (hauth : verify_api_key cfg.API_KEY auth = Except.ok tok)
    (hg : pyTruthy cfg.GEMINI_API_KEY = true)
    (hv : req.voice ∉ SUPPORTED_GEMINI_VOICES) :
    convertRoute cfg w auth req fs0 =
      (Response.err 400 ("Target voice not supported. Choose from: " ++
        String.intercalate ", " SUPPORTED_GEMINI_VOICES), Trace.noEffect fs0) := by
  simp [convertRoute, hauth, text_to_speech, hg, hv]

/-- C3 witness: the theorem evaluated at the concrete configuration and the
request with the unsupported voice robot. -/
theorem C3_witness :
    convertRoute cfg1 wOk (some "Bearer k") reqRobot [] =
      (Response.err 400 ("Target voice not supported. Choose from: " ++
        String.intercalate ", " SUPPORTED_GEMINI_VOICES), Trace.noEffect []) :=
  C3_unsupported_voice_rejected cfg1 wOk (some "Bearer k") reqRobot [] "k"
    rfl rfl (by decide)

/-- C8 (confirmed): for every authenticated /convert request on a configured
service whose user_id is absent (the empty, falsy value of the parsed field),
the response is 400 and no external call happens: the pipeline performs no
side effect. -/
theorem C8_missing_user_id_rejected (cfg : Config) (w : World)
    (auth : Option String) (req : TextToSpeechRequest) (fs0 : FS) (tok : String)
    (hauth : verify_api_key cfg.API_KEY auth = Except.ok tok)
    (hg : pyTruthy cfg.GEMINI_API_KEY = true)
    (hu : req.user_id = "") :
    (convertRoute cfg w auth req fs0).1.status = 400 ∧
    (convertRoute cfg w auth req fs0).2 = Trace.noEffect fs0 := by
  by_cases hv : req.voice ∈ SUPPORTED_GEMINI_VOICES <;>
    simp [convertRoute, hauth, text_to_speech, hg, hv, hu, Response.status]

/-- C8 witness: the theorem evaluated at the concrete request with an empty
user_id. -/
theorem C8_witness :
    (convertRoute cfg1 wOk (some "Bearer k") reqNoUser []).1.status = 400 ∧
    (convertRoute cfg1 wOk (some "Bearer k") reqNoUser []).2 =
      Trace.noEffect [] :=
  C8_missing_user_id_rejected cfg1 wOk (some "Bearer k") reqNoUser [] "k"
    rfl rfl rfl

/-- C2 (confirmed): for every authenticated /convert request on a configured
service that reaches synthesis with a supported voice and a present user_id,
if the synthesis step fails then the endpoint answers 500 carrying the wrapped
cause, the filesystem is unchanged, and the storage save step is never
reached. -/
theorem C2_synthesis_failure_no_write (cfg : Config) (w : World)
    (auth : Option String) (req : TextToSpeechRequest) (fs0 : FS)
    (tok msg : String)
    (hauth : verify_api_key cfg.API_KEY auth = Except.ok tok)
    (hg : pyTruthy cfg.GEMINI_API_KEY = true)
    (hv : req.voice ∈ SUPPORTED_GEMINI_VOICES)
    (hu : req.user_id ≠ "")
    (hgen : (generate_gemini_tts w.gemini req.text req.voice).1 =
      Except.error msg) :
    convertRoute cfg w auth req fs0 =
      (Response.err 500 ("Error in text to speech conversion: " ++ msg),
       { Trace.noEffect fs0 with synthCalls := 1 }) := by
  have h2 := generate_gemini_tts_calls_one w.gemini req.text req.voice hv
  rcases hE : generate_gemini_tts w.gemini req.text req.voice with ⟨r, n⟩
  rw [hE] at hgen h2
  simp only at hgen h2
  subst hgen h2
  simp [convertRoute, hauth, text_to_speech, hg, hv, hu, hE, Trace.noEffect]

/-- C2 witness: the theorem evaluated at the environment whose synthesis
capability raises the message boom. -/
theorem C2_witness :
    convertRoute cfg1 wErr (some "Bearer k") reqHello [] =
      (Response.err 500
        "Error in text to speech conversion: Gemini TTS generation failed: boom",
       { Trace.noEffect [] with synthCalls := 1 }) :=
  C2_synthesis_failure_no_write cfg1 wErr (some "Bearer k") reqHello [] "k"
    "Gemini TTS generation failed: boom" rfl rfl (by decide) (by decide) rfl

/-- C5 (confirmed): for every authenticated /convert request on a configured
service with a supported voice and a present user_id, when synthesis returns
the bytes B and the write succeeds, the endpoint answers 200, the file written
under the local storage root at the joined per-owner path holds exactly B, the
returned audio_url is the /audio/ownerId/uuid.wav path built from the fresh
identifier, and the returned local_path names the same file. -/
theorem C5_success_stores_bytes (cfg : Config) (w : World)
    (auth : Option String) (req : TextToSpeechRequest) (fs0 : FS)
    (tok : String) (B : Bytes)
    (hauth : verify_api_key cfg.API_KEY auth = Except.ok tok)
    (hg : pyTruthy cfg.GEMINI_API_KEY = true)
    (hv : req.voice ∈ SUPPORTED_GEMINI_VOICES)
    (hu : req.user_id ≠ "")
    (hsyn : w.gemini req.text req.voice = GeminiOutcome.returns (some B))
    (hmk : w.makedirsFails = Option.none)
    (hwr : w.writeOutcome = WriteOutcome.ok) :
    convertRoute cfg w auth req fs0 =
      (Response.ok ("/audio/" ++ req.user_id ++ "/" ++ (w.freshId ++ ".wav"))
        (pathJoin (pathJoin cfg.LOCAL_AUDIO_PATH req.user_id) (w.freshId ++ ".wav")),
       { fs := fsWrite fs0
           (pathJoin (pathJoin cfg.LOCAL_AUDIO_PATH req.user_id) (w.freshId ++ ".wav")) B,
         synthCalls := 1, saveCalls := 1, cleanupInvoked := false,
         removeCalls := 0, cleanupFailures := 0, removeTarget := Option.none }) ∧
    fsLookup (convertRoute cfg w auth req fs0).2.fs
      (pathJoin (pathJoin cfg.LOCAL_AUDIO_PATH req.user_id) (w.freshId ++ ".wav")) =
      some B := by
  have hE := generate_gemini_tts_ok w.gemini req.text req.voice B hv hsyn
  constructor
  · simp [convertRoute, hauth, text_to_speech, hg, hv, hu, hE, hmk, hwr]
  · simp [convertRoute, hauth, text_to_speech, hg, hv, hu, hE, hmk, hwr,
      fsLookup_fsWrite]

/-- C5 witness: the theorem evaluated at the successful concrete environment;
the stored file holds exactly the synthesized bytes. -/
theorem C5_witness :
    convertRoute cfg1 wOk (some "Bearer k") reqHello [] =
      (Response.ok "/audio/u1/id0.wav" "/app/generated_audio/u1/id0.wav",
       { fs := [("/app/generated_audio/u1/id0.wav", [7, 8])],
         synthCalls := 1, saveCalls := 1, cleanupInvoked := false,
         removeCalls := 0, cleanupFailures := 0, removeTarget := Option.none }) ∧
    fsLookup (convertRoute cfg1 wOk (some "Bearer k") reqHello []).2.fs
      "/app/generated_audio/u1/id0.wav" = some [7, 8] :=
  C5_success_stores_bytes cfg1 wOk (some "Bearer k") reqHello [] "k" [7, 8]
    rfl rfl (by decide) (by decide) rfl rfl rfl

/-- C1 counterexample: synthesis succeeds, the write raises after a partial
write, and the subsequent removal raises as well; the endpoint answers 500
with the original cause and logs the cleanup failure, but the partial artifact
file is still present at the attempted path, refuting the conjunct that no
artifact file remains after the failed request. -/
theorem C1_counterexample :
    (convertRoute cfg1 wBad (some "Bearer k") reqHello []).1 =
      Response.err 500 "Error in text to speech conversion: disk full" ∧
    (convertRoute cfg1 wBad (some "Bearer k") reqHello []).2.cleanupFailures = 1 ∧
    fsExists (convertRoute cfg1 wBad (some "Bearer k") reqHello []).2.fs
      "/app/generated_audio/u1/id0.wav" = true :=
  ⟨rfl, rfl, rfl⟩

/-- C1 (amended): for every authenticated /convert request on a configured
service in which synthesis succeeds but the write raises after the artifact
path is determined, the endpoint answers 500 surfacing the original cause;
the guarded cleanup of the attempted artifact path runs before the error is
surfaced, deleting the file when present and calling the removal at most once
and only on that path; a removal failure is logged and never replaces the
original error; and whenever no cleanup failure occurs, no artifact file
remains at the attempted path. -/
theorem C1_persist_failure_cleanup (cfg : Config) (w : World)
    (auth : Option String) (req : TextToSpeechRequest) (fs0 : FS)
    (tok m : String) (B : Bytes)
    (hauth : verify_api_key cfg.API_KEY auth = Except.ok tok)
    (hg : pyTruthy cfg.GEMINI_API_KEY = true)
    (hv : req.voice ∈ SUPPORTED_GEMINI_VOICES)
    (hu : req.user_id ≠ "")
    (hsyn : w.gemini req.text req.voice = GeminiOutcome.returns (some B))
    (hmk : w.makedirsFails = Option.none)
    (hw : w.writeOutcome.failMsg = some m) :
    (convertRoute cfg w auth req fs0).1 =
      Response.err 500 ("Error in text to speech conversion: " ++ m) ∧
    (convertRoute cfg w auth req fs0).2.cleanupInvoked = true ∧
    (convertRoute cfg w auth req fs0).2.removeCalls ≤ 1 ∧
    ((convertRoute cfg w auth req fs0).2.removeCalls = 1 →
      (convertRoute cfg w auth req fs0).2.removeTarget =
        some (pathJoin (pathJoin cfg.LOCAL_AUDIO_PATH req.user_id)
          (w.freshId ++ ".wav"))) ∧
    (w.removeFails = false →
      (convertRoute cfg w auth req fs0).2.cleanupFailures = 0) ∧
    ((convertRoute cfg w auth req fs0).2.cleanupFailures = 0 →
      fsExists (convertRoute cfg w auth req fs0).2.fs
        (pathJoin (pathJoin cfg.LOCAL_AUDIO_PATH req.user_id)
          (w.freshId ++ ".wav")) = false) := by
  have hE := generate_gemini_tts_ok w.gemini req.text req.voice B hv hsyn
  rcases hwo : w.writeOutcome with _ | m' | ⟨p, m'⟩
  · rw [hwo] at hw
    simp [WriteOutcome.failMsg] at hw
  · rw [hwo] at hw
    simp only [WriteOutcome.failMsg, Option.some.injEq] at hw
    subst hw
    by_cases he : fsExists fs0
      (pathJoin (pathJoin cfg.LOCAL_AUDIO_PATH req.user_id) (w.freshId ++ ".wav"))
    · by_cases hr : w.removeFails <;>
        simp [convertRoute, hauth, text_to_speech, hg, hv, hu, hE, hmk, hwo,
          cleanupFile, he, hr, fsExists_fsErase]
    · simp [convertRoute, hauth, text_to_speech, hg, hv, hu, hE, hmk, hwo,
        cleanupFile, he]
  · rw [hwo] at hw
    simp only [WriteOutcome.failMsg, Option.some.injEq] at hw
    subst hw
    by_cases hr : w.removeFails <;>
      simp [convertRoute, hauth, text_to_speech, hg, hv, hu, hE, hmk, hwo,
        cleanupFile, hr, fsExists_fsWrite, fsExists_fsErase]

/-- C1 witness: the amended theorem evaluated at the environment whose write
raises after a partial write and whose removal is healthy; the partial file is
removed and no cleanup failure is logged. -/
theorem C1_witness :
    (convertRoute cfg1 wFailPartClean (some "Bearer k") reqHello []).1 =
      Response.err 500 "Error in text to speech conversion: disk full" ∧
    (convertRoute cfg1 wFailPartClean (some "Bearer k") reqHello []).2.cleanupInvoked = true ∧
    (convertRoute cfg1 wFailPartClean (some "Bearer k") reqHello []).2.removeCalls ≤ 1 ∧
    ((convertRoute cfg1 wFailPartClean (some "Bearer k") reqHello []).2.removeCalls = 1 →
      (convertRoute cfg1 wFailPartClean (some "Bearer k") reqHello []).2.removeTarget =
        some "/app/generated_audio/u1/id0.wav") ∧
    (wFailPartClean.removeFails = false →
      (convertRoute cfg1 wFailPartClean (some "Bearer k") reqHello []).2.cleanupFailures = 0) ∧
    ((convertRoute cfg1 wFailPartClean (some "Bearer k") reqHello []).2.cleanupFailures = 0 →
      fsExists (convertRoute cfg1 wFailPartClean (some "Bearer k") reqHello []).2.fs
        "/app/generated_audio/u1/id0.wav" = false) :=
  C1_persist_failure_cleanup cfg1 wFailPartClean (some "Bearer k") reqHello []
    "k" "disk full" [7, 8] rfl rfl (by decide) (by decide) rfl rfl rfl

/-- C7 counterexample: an authenticated /convert request whose text is the
empty string, with a supported voice and a present user_id, is not rejected:
it is answered 200 and the synthesis capability is invoked once with the empty
text, refuting the claim that validation rejects empty text before synthesis. -/
theorem C7_counterexample :
    (convertRoute cfg1 wOk (some "Bearer k") reqEmptyText []).1.status = 200 ∧
    (convertRoute cfg1 wOk (some "Bearer k") reqEmptyText []).2.synthCalls = 1 :=
  ⟨rfl, rfl⟩

/-- C7 (amended): the service performs no emptiness validation on text: every
authenticated /convert request on a configured service with empty text, a
supported voice and a present user_id proceeds to synthesis, invoking the
capability exactly once, and is never answered 400. -/
theorem C7_empty_text_not_rejected (cfg : Config) (w : World)
    (auth : Option String) (fs0 : FS) (tok voice uid : String)
    (hauth : verify_api_key cfg.API_KEY auth = Except.ok tok)
    (hg : pyTruthy cfg.GEMINI_API_KEY = true)
    (hv : voice ∈ SUPPORTED_GEMINI_VOICES)
    (hu : uid ≠ "") :
    (convertRoute cfg w auth
      { text := "", voice := voice, user_id := uid } fs0).2.synthCalls = 1 ∧
    (convertRoute cfg w auth
      { text := "", voice := voice, user_id := uid } fs0).1.status ≠ 400 := by
  have h2 := generate_gemini_tts_calls_one w.gemini "" voice hv
  rcases hE : generate_gemini_tts w.gemini "" voice with ⟨r, n⟩
  rw [hE] at h2
  simp only at h2
  subst h2
  rcases r with msg | B
  · simp [convertRoute, hauth, text_to_speech, hg, hv, hu, hE, Response.status]
  · rcases hmk : w.makedirsFails with _ | mm
    · rcases hwo : w.writeOutcome with _ | m' | ⟨p, m'⟩ <;>
        simp [convertRoute, hauth, text_to_speech, hg, hv, hu, hE, hmk, hwo,
          Response.status]
    · simp [convertRoute, hauth, text_to_speech, hg, hv, hu, hE, hmk,
        Response.status]

/-- C7 witness: the amended theorem evaluated at the environment whose
synthesis raises; the empty-text request still reaches synthesis and is
answered 500, not 400. -/
theorem C7_witness :
    (convertRoute cfg1 wErr (some "Bearer k") reqEmptyText []).2.synthCalls = 1 ∧
    (convertRoute cfg1 wErr (some "Bearer k") reqEmptyText []).1.status ≠ 400 :=
  C7_empty_text_not_rejected cfg1 wErr (some "Bearer k") [] "k" "echo" "u1"
    rfl rfl (by decide) (by decide)

/-- C9 counterexample: with an external capability that would return audio for
any input, the synthesis client called on the unsupported voice robot raises
its own validation error and invokes the capability zero times, refuting the
claim that it does not re-validate the supported-voice rule and only forwards. -/
theorem C9_counterexample :
    generate_gemini_tts geminiConst "hi" "robot" =
      (Except.error "Gemini TTS generation failed: Voice \x27robot\x27 is not supported.",
       0) :=
  rfl

/-- C9 (amended): the synthesis client does re-validate the supported-voice
rule: for every unsupported voice it raises without invoking the external
capability, and for every supported voice it invokes the capability exactly
once and normalizes a well-formed response into its audio bytes. -/
theorem C9_client_revalidates_voice (oracle : String → String → GeminiOutcome)
    (text voice : String) :
    (voice ∉ SUPPORTED_GEMINI_VOICES →
      generate_gemini_tts oracle text voice =
        (Except.error ("Gemini TTS generation failed: Voice \x27" ++ voice ++
          "\x27 is not supported."), 0)) ∧
    (voice ∈ SUPPORTED_GEMINI_VOICES →
      (generate_gemini_tts oracle text voice).2 = 1 ∧
      ∀ B, oracle text voice = GeminiOutcome.returns (some B) →
        (generate_gemini_tts oracle text voice).1 = Except.ok B) := by
  constructor
  · intro h
    simp [generate_gemini_tts, h]
  · intro h
    refine ⟨generate_gemini_tts_calls_one oracle text voice h, ?_⟩
    intro B hB
    simp [generate_gemini_tts, h, hB]

/-- C9 witness: the amended theorem evaluated at a constant capability, an
unsupported and a supported voice. -/
theorem C9_witness :
    generate_gemini_tts geminiConst "hi" "whisper" =
      (Except.error "Gemini TTS generation failed: Voice \x27whisper\x27 is not supported.",
       0) ∧
    (generate_gemini_tts geminiConst "hi" "echo").2 = 1 ∧
    (generate_gemini_tts geminiConst "hi" "echo").1 = Except.ok [1] :=
  ⟨(C9_client_revalidates_voice geminiConst "hi" "whisper").1 (by decide),
   ((C9_client_revalidates_voice geminiConst "hi" "echo").2 (by decide)).1,
   ((C9_client_revalidates_voice geminiConst "hi" "echo").2 (by decide)).2 [1] rfl⟩

end SeedVC
